import Mathlib

/-!
Shallow embedding of `wilebeast/govaluate` (file `EvaluableExpression.go`) and
proofs about its evaluator, compile pipeline and introspection accessors.

The repository file under verification contains the `EvaluableExpression`
struct, its constructors, `Evaluate`/`Eval`/`evaluateStage`, the `typeCheck`
helper and the accessors `Tokens`, `String` and `Vars`.  Types and helper
functions that live in other files of the repository (the token and operator
enumerations, the `Parameters` interface and its adapters, the compile
phases, `evaluationStage.isShortCircuitable`) are modelled from the spec, as
noted on each definition.  The `ellen.Printf` tracing calls are pure logging
(the spec classifies them as an injectable observer outside the core control
flow) and have no counterpart in the embedding.
-/

namespace Govaluate

/-- Modelled from the spec: the dynamic `interface\x7b\x7d` value domain, a closed
tagged union Number/String/Boolean/DateTime/Null (section 9 of the spec);
`int` is kept separate from `float` because the Go code compares an
`interface\x7b\x7d` against the untyped `int` constant `shortCircuitHolder`,
which never equals a `float64` or `bool` value. DateTime is modelled as a
Unix timestamp. The Array alternative of the union is left out: every
operation in the file under src/ treats operand values opaquely, so no claim
depends on the structure of array payloads. -/
inductive Value : Type where
  | null : Value
  | bool (b : Bool) : Value
  | int (n : Int) : Value
  | float (q : ℚ) : Value
  | str (s : String) : Value
  | datetime (t : Int) : Value
deriving DecidableEq, Repr

/-- `const shortCircuitHolder int = -1` from EvaluableExpression.go. -/
def shortCircuitHolder : Value := Value.int (-1)

/-- Modelled from the spec: the `Parameters` binding-provider capability,
`get(name) -> (value, found)`; a lookup returns a value or an error. -/
abbrev Parameters : Type := String → Except String Value

/-- Modelled from the spec: user-registered functions are opaque callables
invoked with a value array. -/
abbrev ExpressionFunction : Type := List Value → Except String Value

/-- Modelled from the spec: the closed `OperatorSymbol` enumeration
(arithmetic, comparison, logical, bitwise, string/regex, ternary,
null-coalescing operators, plus the markers used for leaf stages). -/
inductive OperatorSymbol : Type where
  | LITERAL | NOOP | EQ | NEQ | GT | LT | GTE | LTE | REQ | NREQ | IN
  | AND | OR
  | PLUS | MINUS | BITWISE_AND | BITWISE_OR | BITWISE_XOR
  | BITWISE_LSHIFT | BITWISE_RSHIFT
  | MULTIPLY | DIVIDE | MODULUS | EXPONENT
  | NEGATE | INVERT | BITWISE_NOT
  | TERNARY_TRUE | TERNARY_FALSE | COALESCE
  | FUNCTIONAL | ACCESS | SEPARATE
deriving DecidableEq, Repr

/-- Modelled from the spec: each operator symbol has a display form used in
error messages (the Go `OperatorSymbol.String()` method). -/
def OperatorSymbol.String : OperatorSymbol → String
  | .LITERAL => "LITERAL"
  | .NOOP => "NOOP"
  | .EQ => "=="
  | .NEQ => "!="
  | .GT => ">"
  | .LT => "<"
  | .GTE => ">="
  | .LTE => "<="
  | .REQ => "=~"
  | .NREQ => "!~"
  | .IN => "in"
  | .AND => "&&"
  | .OR => "||"
  | .PLUS => "+"
  | .MINUS => "-"
  | .BITWISE_AND => "&"
  | .BITWISE_OR => "|"
  | .BITWISE_XOR => "^"
  | .BITWISE_LSHIFT => "<<"
  | .BITWISE_RSHIFT => ">>"
  | .MULTIPLY => "*"
  | .DIVIDE => "/"
  | .MODULUS => "%"
  | .EXPONENT => "**"
  | .NEGATE => "-"
  | .INVERT => "!"
  | .BITWISE_NOT => "~"
  | .TERNARY_TRUE => "?"
  | .TERNARY_FALSE => ":"
  | .COALESCE => "??"
  | .FUNCTIONAL => "()"
  | .ACCESS => "."
  | .SEPARATE => ","

/-- Modelled from the spec: the token-kind enumeration of the `Token` data
model (section 3 of the spec). -/
inductive TokenKind : Type where
  | NUMERIC | STRING | BOOLEAN | DATETIME | VARIABLE | FUNCTION
  | SEPARATOR | CLAUSE_OPEN | CLAUSE_CLOSE | ARRAY_OPEN | ARRAY_CLOSE
  | LOGICAL_OP | COMPARATOR_OP | PREFIX_OP | MODIFIER_OP | TERNARY_OP
  | ACCESSOR
deriving DecidableEq, Repr

/-- Modelled from the spec: a token is a kind together with a dynamically
typed payload. -/
structure ExpressionToken : Type where
  Kind : TokenKind
  Value : Govaluate.Value
deriving DecidableEq, Repr

/-- The Go type assertion `v.(string)`: succeeds exactly on string payloads
(the Go original panics otherwise, modelled as `none`). -/
def Value.asString : Value → Option String
  | .str s => some s
  | _ => none

/-- Modelled from the spec: the rendering of a value by Go `fmt` verbs, used
only to build type-error messages. -/
def Value.goFormat : Value → String
  | .null => "<nil>"
  | .bool true => "true"
  | .bool false => "false"
  | .int n => toString n
  | .float q => toString q
  | .str s => s
  | .datetime t => toString t

/-- Modelled from the spec: Go `fmt.Sprintf` restricted to the way the file
uses it — each `%v` or `%s` verb of the format consumes the next argument. -/
def sprintfVerbs : List String → List Char → List Char
  | _, [] => []
  | [], c :: rest => c :: sprintfVerbs [] rest
  | arg :: args, '%' :: 'v' :: rest => arg.data ++ sprintfVerbs args rest
  | arg :: args, '%' :: 's' :: rest => arg.data ++ sprintfVerbs args rest
  | args, c :: rest => c :: sprintfVerbs args rest

/-- `fmt.Sprintf(format, value, symbol.String())` as the file calls it. -/
def sprintfValueSymbol (format : String) (value : Value) (symbol : OperatorSymbol) : String :=
  String.mk (sprintfVerbs [value.goFormat, symbol.String] format.data)

/-- Modelled from the spec: the parameter adapter canonicalizes integer-like
numeric inputs into the single numeric representation operators consume. -/
def sanitizeValue : Value → Value
  | .int n => .float (n : ℚ)
  | v => v

/-- Modelled from the spec: `MapParameters` wraps a plain name-to-value
mapping (modelled as an association list) as a binding provider; a missing
binding fails with a lookup error naming the variable. -/
def MapParameters (m : List (String × Value)) : Parameters :=
  fun name =>
    match m.lookup name with
    | some v => .ok v
    | none => .error ("No parameter " ++ name ++ " found.")

/-- `var DUMMY_PARAMETERS = MapParameters(map[string]interface\x7b\x7d\x7b\x7d)` -/
def DUMMY_PARAMETERS : Parameters := MapParameters []

/-- Modelled from the spec: the `sanitizedParameters` wrapper sanitizes every
value the inner provider returns before operators see it. -/
def sanitizedParameters (p : Parameters) : Parameters :=
  fun name => (p name).map sanitizeValue

/-- An evaluation-stage tree node, as in the spec data model: operator
symbol, optional left/right children, the runtime `operate` behavior, the
single-operand type-check predicates, the optional combined predicate, and
the error-message template. -/
inductive evaluationStage : Type where
  | mk
      (symbol : OperatorSymbol)
      (leftStage rightStage : Option evaluationStage)
      (operator : Value → Value → Parameters → Except String Value)
      (leftTypeCheck rightTypeCheck : Option (Value → Bool))
      (typeCheck : Option (Value → Value → Bool))
      (typeErrorFormat : String) : evaluationStage

def evaluationStage.symbol : evaluationStage → OperatorSymbol
  | ⟨s, _, _, _, _, _, _, _⟩ => s

def evaluationStage.leftStage : evaluationStage → Option evaluationStage
  | ⟨_, l, _, _, _, _, _, _⟩ => l

def evaluationStage.rightStage : evaluationStage → Option evaluationStage
  | ⟨_, _, r, _, _, _, _, _⟩ => r

def evaluationStage.operator : evaluationStage → (Value → Value → Parameters → Except String Value)
  | ⟨_, _, _, op, _, _, _, _⟩ => op

def evaluationStage.leftTypeCheck : evaluationStage → Option (Value → Bool)
  | ⟨_, _, _, _, ltc, _, _, _⟩ => ltc

def evaluationStage.rightTypeCheck : evaluationStage → Option (Value → Bool)
  | ⟨_, _, _, _, _, rtc, _, _⟩ => rtc

def evaluationStage.typeCheck : evaluationStage → Option (Value → Value → Bool)
  | ⟨_, _, _, _, _, _, tc, _⟩ => tc

def evaluationStage.typeErrorFormat : evaluationStage → String
  | ⟨_, _, _, _, _, _, _, fmt⟩ => fmt

/-- Modelled from the spec: a stage is short-circuitable exactly when its
symbol is one of `&&`, `||`, `??` or the two ternary branches (the
`isShortCircuitable` method lives outside the file under src/). -/
def evaluationStage.isShortCircuitable (stage : evaluationStage) : Bool :=
  match stage.symbol with
  | .AND | .OR | .TERNARY_TRUE | .TERNARY_FALSE | .COALESCE => true
  | _ => false

/-- The `EvaluableExpression` struct of EvaluableExpression.go. -/
structure EvaluableExpression : Type where
  QueryDateFormat : String
  ChecksTypes : Bool
  tokens : List ExpressionToken
  evaluationStages : Option evaluationStage
  inputExpression : String

/-- `const isoDateFormat` of EvaluableExpression.go. -/
def isoDateFormat : String := "2006-01-02T15:04:05.999999999Z0700"

/-- The free function `typeCheck(check, value, symbol, format)` of
EvaluableExpression.go: `none` plays the role of a nil error. -/
def typeCheck (check : Option (Value → Bool)) (value : Value)
    (symbol : OperatorSymbol) (format : String) : Option String :=
  match check with
  | none => none
  | some check =>
    if check value then none
    else some (sprintfValueSymbol format value symbol)

/-- Outcome of the short-circuit `switch` inside `evaluateStage`: either an
early return (`inl`) or the value held by the local variable `right` when
control falls through to the rest of the function (`inr`). -/
def shortCircuitSwitch (symbol : OperatorSymbol) (left : Value) :
    Except String Value ⊕ Value :=
  match symbol with
  | .AND => if left = .bool false then .inl (.ok (.bool false)) else .inr .null
  | .OR => if left = .bool true then .inl (.ok (.bool true)) else .inr .null
  | .COALESCE => if left ≠ .null then .inl (.ok left) else .inr .null
  | .TERNARY_TRUE => if left = .bool false then .inr shortCircuitHolder else .inr .null
  | .TERNARY_FALSE => if left ≠ .null then .inr shortCircuitHolder else .inr .null
  | _ => .inr .null

/-- The type-checking block of `evaluateStage` (lines 233-252): the error it
produces, if any, `none` meaning control reaches the `operator` call. -/
def stageTypeCheckBlock (checksTypes : Bool) (stage : evaluationStage)
    (left right : Value) : Option String :=
  if checksTypes then
    match stage.typeCheck with
    | none =>
      match Govaluate.typeCheck stage.leftTypeCheck left stage.symbol stage.typeErrorFormat with
      | some e => some e
      | none => Govaluate.typeCheck stage.rightTypeCheck right stage.symbol stage.typeErrorFormat
    | some tc =>
      if tc left right then none
      else some (sprintfValueSymbol stage.typeErrorFormat left stage.symbol)
  else none

theorem sizeOf_lt_of_leftStage {s l : evaluationStage}
    (h : s.leftStage = some l) : sizeOf l < sizeOf s := by
  cases s with
  | mk sym ls rs op ltc rtc tc fmt =>
    simp only [evaluationStage.leftStage] at h
    subst h
    simp only [evaluationStage.mk.sizeOf_spec, Option.some.sizeOf_spec]
    omega

theorem sizeOf_lt_of_rightStage {s r : evaluationStage}
    (h : s.rightStage = some r) : sizeOf r < sizeOf s := by
  cases s with
  | mk sym ls rs op ltc rtc tc fmt =>
    simp only [evaluationStage.rightStage] at h
    subst h
    simp only [evaluationStage.mk.sizeOf_spec, Option.some.sizeOf_spec]
    omega

/-- `evaluateStage` of EvaluableExpression.go: evaluate the left child (an
error aborts the call), apply the short-circuit switch, evaluate the right
child unless it was short-circuited away, run the type checks, and invoke
the operator. -/
def EvaluableExpression.evaluateStage (this : EvaluableExpression)
    (stage : evaluationStage) (parameters : Parameters) : Except String Value :=
  let leftRes : Except String Value :=
    match _hl : stage.leftStage with
    | some ls => this.evaluateStage ls parameters
    | none => .ok .null
  match leftRes with
  | .error e => .error e
  | .ok left =>
    let afterSwitch : Except String Value ⊕ Value :=
      if stage.isShortCircuitable then shortCircuitSwitch stage.symbol left
      else .inr .null
    match afterSwitch with
    | .inl result => result
    | .inr right0 =>
      let rightRes : Except String Value :=
        if right0 ≠ shortCircuitHolder then
          match _hr : stage.rightStage with
          | some rs => this.evaluateStage rs parameters
          | none => .ok right0
        else .ok right0
      match rightRes with
      | .error e => .error e
      | .ok right =>
        match stageTypeCheckBlock this.ChecksTypes stage left right with
        | some e => .error e
        | none => stage.operator left right parameters
termination_by sizeOf stage
decreasing_by
  · exact sizeOf_lt_of_leftStage _hl
  · exact sizeOf_lt_of_rightStage _hr

/-- Evaluation of an optional child stage: a present child is evaluated, a
nil child contributes the nil value (the `left`/`right` locals start as
nil). -/
def EvaluableExpression.evalChild (this : EvaluableExpression)
    (child : Option evaluationStage) (parameters : Parameters) :
    Except String Value :=
  match child with
  | some s => this.evaluateStage s parameters
  | none => .ok .null

/-- Unfolding equation for `evaluateStage` in terms of the fields of the
stage being evaluated. -/
theorem evaluateStage_mk (this : EvaluableExpression) (sym : OperatorSymbol)
    (ls rs : Option evaluationStage)
    (op : Value → Value → Parameters → Except String Value)
    (ltc rtc : Option (Value → Bool)) (ctc : Option (Value → Value → Bool))
    (efmt : String) (p : Parameters) :
    this.evaluateStage (.mk sym ls rs op ltc rtc ctc efmt) p =
      match this.evalChild ls p with
      | .error e => .error e
      | .ok left =>
        match (if (evaluationStage.mk sym ls rs op ltc rtc ctc efmt).isShortCircuitable
               then shortCircuitSwitch sym left else .inr .null) with
        | .inl result => result
        | .inr right0 =>
          match (if right0 ≠ shortCircuitHolder then
                   match rs with
                   | some r => this.evaluateStage r p
                   | none => .ok right0
                 else .ok right0) with
          | .error e => .error e
          | .ok right =>
            match stageTypeCheckBlock this.ChecksTypes
                (.mk sym ls rs op ltc rtc ctc efmt) left right with
            | some e => .error e
            | none => op left right p := by
  rw [EvaluableExpression.evaluateStage]
  cases ls <;> cases rs <;> rfl

/-- `Eval` of EvaluableExpression.go: a nil stage tree yields `(nil, nil)`;
a nil provider is replaced by `DUMMY_PARAMETERS`, a non-nil one is wrapped
in `sanitizedParameters`. -/
def EvaluableExpression.Eval (this : EvaluableExpression)
    (parameters : Option Parameters) : Except String Value :=
  match this.evaluationStages with
  | none => .ok .null
  | some stages =>
    let parameters : Parameters :=
      match parameters with
      | some p => sanitizedParameters p
      | none => DUMMY_PARAMETERS
    this.evaluateStage stages parameters

/-- `Evaluate` of EvaluableExpression.go: a nil map goes to `Eval(nil)`,
otherwise the map is wrapped by `MapParameters`. -/
def EvaluableExpression.Evaluate (this : EvaluableExpression)
    (parameters : Option (List (String × Value))) : Except String Value :=
  match parameters with
  | none => this.Eval none
  | some m => this.Eval (some (MapParameters m))

/-- `Tokens` of EvaluableExpression.go. -/
def EvaluableExpression.Tokens (this : EvaluableExpression) : List ExpressionToken :=
  this.tokens

/-- `Vars` of EvaluableExpression.go: the `Value.(string)` payload of every
VARIABLE-kind token, appended in token order; the Go original panics when a
VARIABLE token carries a non-string payload, modelled as `none`. -/
def EvaluableExpression.Vars (this : EvaluableExpression) : Option (List String) :=
  this.Tokens.foldlM
    (fun varlist val =>
      if val.Kind = TokenKind.VARIABLE then
        (val.Value.asString).map (fun s => varlist ++ [s])
      else
        some varlist)
    []

/-- `String` of EvaluableExpression.go: the recorded input expression. -/
def EvaluableExpression.String (this : EvaluableExpression) : String :=
  this.inputExpression

/-!
The compile pipeline.  The phase functions `parseTokens`, `checkBalance`,
`checkExpressionSyntax`, `optimizeTokens` and `planStages` are package-level
functions of the repository that are not under src/; following the spec's
description of the pipeline they are taken as explicit parameters of the
constructors, so every theorem below holds for an arbitrary implementation
of the phases.  `checkBalance`/`checkExpressionSyntax` return a nil-able
error (`Option String`); `optimizeTokens` and `planStages` return a result
or an error; `planStages` may return a nil stage pointer. -/

/-- `NewEvaluableExpressionFromTokens` of EvaluableExpression.go: balance
check, syntax check, token optimization and stage planning in that order,
each failure returning `(nil, err)`; on success the expression carries the
default `QueryDateFormat`, `ChecksTypes = true`, and an empty (zero-value)
`inputExpression`. -/
def NewEvaluableExpressionFromTokens
    (checkBalance : List ExpressionToken → Option String)
    (checkExpressionSyntax : List ExpressionToken → Option String)
    (optimizeTokens : List ExpressionToken → Except String (List ExpressionToken))
    (planStages : List ExpressionToken → Except String (Option evaluationStage))
    (tokens : List ExpressionToken) : Except String EvaluableExpression :=
  match checkBalance tokens with
  | some err => .error err
  | none =>
    match checkExpressionSyntax tokens with
    | some err => .error err
    | none =>
      match optimizeTokens tokens with
      | .error err => .error err
      | .ok optimized =>
        match planStages optimized with
        | .error err => .error err
        | .ok stages =>
          .ok { QueryDateFormat := isoDateFormat
                ChecksTypes := true
                tokens := optimized
                evaluationStages := stages
                inputExpression := "" }

/-- `NewEvaluableExpressionWithFunctions` of EvaluableExpression.go: lex the
string, then run the same four phases as the token-based constructor; the
input expression text is recorded on the result. -/
def NewEvaluableExpressionWithFunctions
    (parseTokens : String → (String → Option ExpressionFunction) →
      Except String (List ExpressionToken))
    (checkBalance : List ExpressionToken → Option String)
    (checkExpressionSyntax : List ExpressionToken → Option String)
    (optimizeTokens : List ExpressionToken → Except String (List ExpressionToken))
    (planStages : List ExpressionToken → Except String (Option evaluationStage))
    (expression : String) (functions : String → Option ExpressionFunction) :
    Except String EvaluableExpression :=
  match parseTokens expression functions with
  | .error err => .error err
  | .ok tokens =>
    match checkBalance tokens with
    | some err => .error err
    | none =>
      match checkExpressionSyntax tokens with
      | some err => .error err
      | none =>
        match optimizeTokens tokens with
        | .error err => .error err
        | .ok optimized =>
          match planStages optimized with
          | .error err => .error err
          | .ok stages =>
            .ok { QueryDateFormat := isoDateFormat
                  ChecksTypes := true
                  tokens := optimized
                  evaluationStages := stages
                  inputExpression := expression }

/-- `NewEvaluableExpression` of EvaluableExpression.go: the string
constructor with an empty function table. -/
def NewEvaluableExpression
    (parseTokens : String → (String → Option ExpressionFunction) →
      Except String (List ExpressionToken))
    (checkBalance : List ExpressionToken → Option String)
    (checkExpressionSyntax : List ExpressionToken → Option String)
    (optimizeTokens : List ExpressionToken → Except String (List ExpressionToken))
    (planStages : List ExpressionToken → Except String (Option evaluationStage))
    (expression : String) : Except String EvaluableExpression :=
  NewEvaluableExpressionWithFunctions parseTokens checkBalance
    checkExpressionSyntax optimizeTokens planStages expression (fun _ => none)

/-!
Shared lemmas about `evaluateStage`, and concrete fixtures used to
instantiate the theorems below. -/

/-- A leaf stage returning the literal `v` (the shape the planner gives to
literal tokens: no children, no type checks). -/
def literalStage (v : Value) : evaluationStage :=
  .mk .LITERAL none none (fun _ _ _ => .ok v) none none none ""

/-- A stage whose evaluation fails; it stands in for a side-effecting
subtree, making any evaluation of it observable in the result. -/
def failingStage (msg : String) : evaluationStage :=
  .mk .LITERAL none none (fun _ _ _ => .error msg) none none none ""

/-- An expression shell holding a given stage tree. -/
def exprWithStages (checksTypes : Bool) (s : Option evaluationStage) :
    EvaluableExpression :=
  { QueryDateFormat := isoDateFormat
    ChecksTypes := checksTypes
    tokens := []
    evaluationStages := s
    inputExpression := "" }

theorem literalStage_eval (this : EvaluableExpression) (v : Value) (p : Parameters) :
    this.evaluateStage (literalStage v) p = .ok v := by
  rw [literalStage, evaluateStage_mk]
  simp [EvaluableExpression.evalChild, evaluationStage.isShortCircuitable,
    evaluationStage.symbol, shortCircuitHolder, stageTypeCheckBlock,
    evaluationStage.typeCheck, evaluationStage.leftTypeCheck,
    evaluationStage.rightTypeCheck, typeCheck]

theorem failingStage_eval (this : EvaluableExpression) (msg : String) (p : Parameters) :
    this.evaluateStage (failingStage msg) p = .error msg := by
  rw [failingStage, evaluateStage_mk]
  simp [EvaluableExpression.evalChild, evaluationStage.isShortCircuitable,
    evaluationStage.symbol, shortCircuitHolder, stageTypeCheckBlock,
    evaluationStage.typeCheck, evaluationStage.leftTypeCheck,
    evaluationStage.rightTypeCheck, typeCheck]

/-- A failure of the left child is the result of the whole stage. -/
theorem evaluateStage_left_error (this : EvaluableExpression)
    (sym : OperatorSymbol) (l : evaluationStage) (rs : Option evaluationStage)
    (op : Value → Value → Parameters → Except String Value)
    (ltc rtc : Option (Value → Bool)) (ctc : Option (Value → Value → Bool))
    (efmt : String) (p : Parameters) (e : String)
    (h : this.evaluateStage l p = .error e) :
    this.evaluateStage (.mk sym (some l) rs op ltc rtc ctc efmt) p = .error e := by
  rw [evaluateStage_mk]
  simp [EvaluableExpression.evalChild, h]

/-- A non-short-circuitable stage whose left part produced the value `lv`
evaluates its right child and continues with type checking and the
operator. -/
theorem evaluateStage_noSC (this : EvaluableExpression)
    (sym : OperatorSymbol) (ls rs : Option evaluationStage)
    (op : Value → Value → Parameters → Except String Value)
    (ltc rtc : Option (Value → Bool)) (ctc : Option (Value → Value → Bool))
    (efmt : String) (p : Parameters) (lv : Value)
    (hsc : (evaluationStage.mk sym ls rs op ltc rtc ctc efmt).isShortCircuitable = false)
    (hl : this.evalChild ls p = .ok lv) :
    this.evaluateStage (.mk sym ls rs op ltc rtc ctc efmt) p =
      match this.evalChild rs p with
      | .error e => .error e
      | .ok rv =>
        match stageTypeCheckBlock this.ChecksTypes
            (.mk sym ls rs op ltc rtc ctc efmt) lv rv with
        | some e => .error e
        | none => op lv rv p := by
  rw [evaluateStage_mk, hl]
  simp [hsc, shortCircuitHolder, EvaluableExpression.evalChild]

/-- C1: an AND stage whose left operand evaluates to `false` returns `false`
without evaluating the right child; an OR stage whose left operand evaluates
to `true` returns `true` without evaluating the right child; a COALESCE
stage whose left operand is non-null returns that left value without
evaluating the right child; a ternary-true stage skips the right child when
the left operand is `false`, and a ternary-false stage skips it when the
left operand is non-null — in each case the result is the same for every
right subtree (and, for the first three, for every operator and type-check
annotation), so the skipped right subtree is never evaluated. -/
theorem claim_C1_short_circuit :
    (∀ (this : EvaluableExpression) (l : evaluationStage)
       (rs : Option evaluationStage)
       (op : Value → Value → Parameters → Except String Value)
       (ltc rtc : Option (Value → Bool)) (ctc : Option (Value → Value → Bool))
       (efmt : String) (p : Parameters),
       this.evaluateStage l p = .ok (.bool false) →
       this.evaluateStage (.mk .AND (some l) rs op ltc rtc ctc efmt) p =
         .ok (.bool false)) ∧
    (∀ (this : EvaluableExpression) (l : evaluationStage)
       (rs : Option evaluationStage)
       (op : Value → Value → Parameters → Except String Value)
       (ltc rtc : Option (Value → Bool)) (ctc : Option (Value → Value → Bool))
       (efmt : String) (p : Parameters),
       this.evaluateStage l p = .ok (.bool true) →
       this.evaluateStage (.mk .OR (some l) rs op ltc rtc ctc efmt) p =
         .ok (.bool true)) ∧
    (∀ (this : EvaluableExpression) (l : evaluationStage)
       (rs : Option evaluationStage)
       (op : Value → Value → Parameters → Except String Value)
       (ltc rtc : Option (Value → Bool)) (ctc : Option (Value → Value → Bool))
       (efmt : String) (p : Parameters) (lv : Value),
       this.evaluateStage l p = .ok lv → lv ≠ .null →
       this.evaluateStage (.mk .COALESCE (some l) rs op ltc rtc ctc efmt) p =
         .ok lv) ∧
    (∀ (this : EvaluableExpression) (l : evaluationStage)
       (r₁ r₂ : Option evaluationStage)
       (op : Value → Value → Parameters → Except String Value)
       (ltc rtc : Option (Value → Bool)) (ctc : Option (Value → Value → Bool))
       (efmt : String) (p : Parameters),
       this.evaluateStage l p = .ok (.bool false) →
       this.evaluateStage (.mk .TERNARY_TRUE (some l) r₁ op ltc rtc ctc efmt) p =
       this.evaluateStage (.mk .TERNARY_TRUE (some l) r₂ op ltc rtc ctc efmt) p) ∧
    (∀ (this : EvaluableExpression) (l : evaluationStage)
       (r₁ r₂ : Option evaluationStage)
       (op : Value → Value → Parameters → Except String Value)
       (ltc rtc : Option (Value → Bool)) (ctc : Option (Value → Value → Bool))
       (efmt : String) (p : Parameters) (lv : Value),
       this.evaluateStage l p = .ok lv → lv ≠ .null →
       this.evaluateStage (.mk .TERNARY_FALSE (some l) r₁ op ltc rtc ctc efmt) p =
       this.evaluateStage (.mk .TERNARY_FALSE (some l) r₂ op ltc rtc ctc efmt) p) := by
  refine ⟨?_, ?_, ?_, ?_, ?_⟩
  · intro this l rs op ltc rtc ctc efmt p h
    rw [evaluateStage_mk]
    simp [EvaluableExpression.evalChild, h, evaluationStage.isShortCircuitable,
      evaluationStage.symbol, shortCircuitSwitch]
  · intro this l rs op ltc rtc ctc efmt p h
    rw [evaluateStage_mk]
    simp [EvaluableExpression.evalChild, h, evaluationStage.isShortCircuitable,
      evaluationStage.symbol, shortCircuitSwitch]
  · intro this l rs op ltc rtc ctc efmt p lv h hnn
    rw [evaluateStage_mk]
    simp [EvaluableExpression.evalChild, h, evaluationStage.isShortCircuitable,
      evaluationStage.symbol, shortCircuitSwitch, hnn]
  · intro this l r₁ r₂ op ltc rtc ctc efmt p h
    rw [evaluateStage_mk, evaluateStage_mk]
    simp [EvaluableExpression.evalChild, h, evaluationStage.isShortCircuitable,
      evaluationStage.symbol, shortCircuitSwitch, shortCircuitHolder,
      stageTypeCheckBlock, evaluationStage.typeCheck,
      evaluationStage.leftTypeCheck, evaluationStage.rightTypeCheck,
      evaluationStage.typeErrorFormat]
  · intro this l r₁ r₂ op ltc rtc ctc efmt p lv h hnn
    rw [evaluateStage_mk, evaluateStage_mk]
    simp [EvaluableExpression.evalChild, h, evaluationStage.isShortCircuitable,
      evaluationStage.symbol, shortCircuitSwitch, shortCircuitHolder, hnn,
      stageTypeCheckBlock, evaluationStage.typeCheck,
      evaluationStage.leftTypeCheck, evaluationStage.rightTypeCheck,
      evaluationStage.typeErrorFormat]

/-- Witness for C1: concrete short-circuit evaluations, with a failing stage
standing in for the side-effecting right subtree. -/
theorem claim_C1_short_circuit_witness :
    (exprWithStages true none).evaluateStage
        (.mk .AND (some (literalStage (.bool false))) (some (failingStage "boom"))
          (fun _ _ _ => .error "op ran") none none none "%v %s") DUMMY_PARAMETERS
      = .ok (.bool false) ∧
    (exprWithStages true none).evaluateStage
        (.mk .OR (some (literalStage (.bool true))) (some (failingStage "boom"))
          (fun _ _ _ => .error "op ran") none none none "%v %s") DUMMY_PARAMETERS
      = .ok (.bool true) ∧
    (exprWithStages true none).evaluateStage
        (.mk .COALESCE (some (literalStage (.float 5))) (some (failingStage "boom"))
          (fun _ _ _ => .error "op ran") none none none "%v %s") DUMMY_PARAMETERS
      = .ok (.float 5) ∧
    (exprWithStages true none).evaluateStage
        (.mk .TERNARY_TRUE (some (literalStage (.bool false))) (some (failingStage "boom"))
          (fun _ r _ => .ok r) none none none "%v %s") DUMMY_PARAMETERS
      = (exprWithStages true none).evaluateStage
          (.mk .TERNARY_TRUE (some (literalStage (.bool false))) (some (failingStage "other"))
            (fun _ r _ => .ok r) none none none "%v %s") DUMMY_PARAMETERS ∧
    (exprWithStages true none).evaluateStage
        (.mk .TERNARY_FALSE (some (literalStage (.float 5))) (some (failingStage "boom"))
          (fun _ r _ => .ok r) none none none "%v %s") DUMMY_PARAMETERS
      = (exprWithStages true none).evaluateStage
          (.mk .TERNARY_FALSE (some (literalStage (.float 5))) (some (failingStage "other"))
            (fun _ r _ => .ok r) none none none "%v %s") DUMMY_PARAMETERS := by
  refine ⟨?_, ?_, ?_, ?_, ?_⟩
  · exact claim_C1_short_circuit.1 _ _ _ _ _ _ _ _ _ (literalStage_eval _ _ _)
  · exact claim_C1_short_circuit.2.1 _ _ _ _ _ _ _ _ _ (literalStage_eval _ _ _)
  · exact claim_C1_short_circuit.2.2.1 _ _ _ _ _ _ _ _ _ _
      (literalStage_eval _ _ _) (by simp)
  · exact claim_C1_short_circuit.2.2.2.1 _ _ _ _ _ _ _ _ _ _
      (literalStage_eval _ _ _)
  · exact claim_C1_short_circuit.2.2.2.2 _ _ _ _ _ _ _ _ _ _ _
      (literalStage_eval _ _ _) (by simp)

/-- C3: a failing left child aborts the stage with that error (no right
child and no operator involved: both are quantified and absent from the
conclusion); a failing right child aborts the stage with that error before
the operator runs; when control reaches the operator, its result — value or
error — is the result of the whole call. -/
theorem claim_C3_error_propagation :
    (∀ (this : EvaluableExpression) (sym : OperatorSymbol) (l : evaluationStage)
       (rs : Option evaluationStage)
       (op : Value → Value → Parameters → Except String Value)
       (ltc rtc : Option (Value → Bool)) (ctc : Option (Value → Value → Bool))
       (efmt : String) (p : Parameters) (e : String),
       this.evaluateStage l p = .error e →
       this.evaluateStage (.mk sym (some l) rs op ltc rtc ctc efmt) p = .error e) ∧
    (∀ (this : EvaluableExpression) (sym : OperatorSymbol) (l r : evaluationStage)
       (op : Value → Value → Parameters → Except String Value)
       (ltc rtc : Option (Value → Bool)) (ctc : Option (Value → Value → Bool))
       (efmt : String) (p : Parameters) (lv : Value) (e : String),
       (evaluationStage.mk sym (some l) (some r) op ltc rtc ctc efmt).isShortCircuitable = false →
       this.evaluateStage l p = .ok lv →
       this.evaluateStage r p = .error e →
       this.evaluateStage (.mk sym (some l) (some r) op ltc rtc ctc efmt) p = .error e) ∧
    (∀ (this : EvaluableExpression) (sym : OperatorSymbol)
       (ls rs : Option evaluationStage)
       (op : Value → Value → Parameters → Except String Value)
       (ltc rtc : Option (Value → Bool)) (ctc : Option (Value → Value → Bool))
       (efmt : String) (p : Parameters) (lv rv : Value),
       (evaluationStage.mk sym ls rs op ltc rtc ctc efmt).isShortCircuitable = false →
       this.evalChild ls p = .ok lv →
       this.evalChild rs p = .ok rv →
       stageTypeCheckBlock this.ChecksTypes (.mk sym ls rs op ltc rtc ctc efmt) lv rv = none →
       this.evaluateStage (.mk sym ls rs op ltc rtc ctc efmt) p = op lv rv p) := by
  refine ⟨?_, ?_, ?_⟩
  · intro this sym l rs op ltc rtc ctc efmt p e h
    exact evaluateStage_left_error this sym l rs op ltc rtc ctc efmt p e h
  · intro this sym l r op ltc rtc ctc efmt p lv e hsc hl hr
    rw [evaluateStage_noSC this sym (some l) (some r) op ltc rtc ctc efmt p lv hsc
      (by simpa [EvaluableExpression.evalChild] using hl)]
    simp [EvaluableExpression.evalChild, hr]
  · intro this sym ls rs op ltc rtc ctc efmt p lv rv hsc hl hr htc
    rw [evaluateStage_noSC this sym ls rs op ltc rtc ctc efmt p lv hsc hl]
    simp [hr, htc]

/-- Witness for C3: concrete error propagation through a PLUS stage, and a
concrete operator pass-through. -/
theorem claim_C3_error_propagation_witness :
    (exprWithStages true none).evaluateStage
        (.mk .PLUS (some (failingStage "left broke")) (some (literalStage (.float 2)))
          (fun _ _ _ => .ok (.float 0)) none none none "%v %s") DUMMY_PARAMETERS
      = .error "left broke" ∧
    (exprWithStages true none).evaluateStage
        (.mk .PLUS (some (literalStage (.float 1))) (some (failingStage "right broke"))
          (fun _ _ _ => .ok (.float 0)) none none none "%v %s") DUMMY_PARAMETERS
      = .error "right broke" ∧
    (exprWithStages true none).evaluateStage
        (.mk .PLUS (some (literalStage (.float 1))) (some (literalStage (.float 2)))
          (fun _ _ _ => .ok (.float 3)) none none none "%v %s") DUMMY_PARAMETERS
      = .ok (.float 3) := by
  refine ⟨?_, ?_, ?_⟩
  · exact claim_C3_error_propagation.1 _ _ _ _ _ _ _ _ _ _ _
      (failingStage_eval _ _ _)
  · exact claim_C3_error_propagation.2.1 _ _ _ _ _ _ _ _ _ _ (.float 1) _
      (by simp [evaluationStage.isShortCircuitable, evaluationStage.symbol])
      (literalStage_eval _ _ _) (failingStage_eval _ _ _)
  · exact claim_C3_error_propagation.2.2 _ _ _ _ _ _ _ _ _ _ (.float 1) (.float 2)
      (by simp [evaluationStage.isShortCircuitable, evaluationStage.symbol])
      (by simp [EvaluableExpression.evalChild, literalStage_eval])
      (by simp [EvaluableExpression.evalChild, literalStage_eval])
      (by simp [stageTypeCheckBlock, evaluationStage.typeCheck,
        evaluationStage.leftTypeCheck, evaluationStage.rightTypeCheck, typeCheck])

theorem typeCheck_none (v : Value) (sym : OperatorSymbol) (efmt : String) :
    typeCheck none v sym efmt = none := rfl

theorem typeCheck_some (f : Value → Bool) (v : Value) (sym : OperatorSymbol)
    (efmt : String) :
    typeCheck (some f) v sym efmt =
      if f v then none else some (sprintfValueSymbol efmt v sym) := rfl

/-- C2: with `ChecksTypes` enabled, the type-check predicates run before the
operator: a failing combined predicate, a failing left predicate (the right
predicate is then never consulted) or a failing right predicate each return
the formatted error carrying the offending operand value and the operator's
display symbol, with the operator — universally quantified and absent from
the conclusion — never invoked; when every predicate passes the operator is
invoked; with `ChecksTypes` disabled no predicate runs (all predicates are
quantified and absent from the conclusion) and the operator is invoked
unconditionally, so the only outcome is the operator's own. -/
theorem claim_C2_type_checking :
    (∀ (this : EvaluableExpression) (sym : OperatorSymbol)
       (ls rs : Option evaluationStage)
       (op : Value → Value → Parameters → Except String Value)
       (ltc rtc : Option (Value → Bool)) (tc : Value → Value → Bool)
       (efmt : String) (p : Parameters) (lv rv : Value),
       (evaluationStage.mk sym ls rs op ltc rtc (some tc) efmt).isShortCircuitable = false →
       this.ChecksTypes = true →
       this.evalChild ls p = .ok lv →
       this.evalChild rs p = .ok rv →
       tc lv rv = false →
       this.evaluateStage (.mk sym ls rs op ltc rtc (some tc) efmt) p =
         .error (sprintfValueSymbol efmt lv sym)) ∧
    (∀ (this : EvaluableExpression) (sym : OperatorSymbol)
       (ls rs : Option evaluationStage)
       (op : Value → Value → Parameters → Except String Value)
       (f : Value → Bool) (rtc : Option (Value → Bool))
       (efmt : String) (p : Parameters) (lv rv : Value),
       (evaluationStage.mk sym ls rs op (some f) rtc none efmt).isShortCircuitable = false →
       this.ChecksTypes = true →
       this.evalChild ls p = .ok lv →
       this.evalChild rs p = .ok rv →
       f lv = false →
       this.evaluateStage (.mk sym ls rs op (some f) rtc none efmt) p =
         .error (sprintfValueSymbol efmt lv sym)) ∧
    (∀ (this : EvaluableExpression) (sym : OperatorSymbol)
       (ls rs : Option evaluationStage)
       (op : Value → Value → Parameters → Except String Value)
       (ltc : Option (Value → Bool)) (g : Value → Bool)
       (efmt : String) (p : Parameters) (lv rv : Value),
       (evaluationStage.mk sym ls rs op ltc (some g) none efmt).isShortCircuitable = false →
       this.ChecksTypes = true →
       this.evalChild ls p = .ok lv →
       this.evalChild rs p = .ok rv →
       typeCheck ltc lv sym efmt = none →
       g rv = false →
       this.evaluateStage (.mk sym ls rs op ltc (some g) none efmt) p =
         .error (sprintfValueSymbol efmt rv sym)) ∧
    (∀ (this : EvaluableExpression) (sym : OperatorSymbol)
       (ls rs : Option evaluationStage)
       (op : Value → Value → Parameters → Except String Value)
       (ltc rtc : Option (Value → Bool))
       (efmt : String) (p : Parameters) (lv rv : Value),
       (evaluationStage.mk sym ls rs op ltc rtc none efmt).isShortCircuitable = false →
       this.ChecksTypes = true →
       this.evalChild ls p = .ok lv →
       this.evalChild rs p = .ok rv →
       typeCheck ltc lv sym efmt = none →
       typeCheck rtc rv sym efmt = none →
       this.evaluateStage (.mk sym ls rs op ltc rtc none efmt) p = op lv rv p) ∧
    (∀ (this : EvaluableExpression) (sym : OperatorSymbol)
       (ls rs : Option evaluationStage)
       (op : Value → Value → Parameters → Except String Value)
       (ltc rtc : Option (Value → Bool)) (tc : Value → Value → Bool)
       (efmt : String) (p : Parameters) (lv rv : Value),
       (evaluationStage.mk sym ls rs op ltc rtc (some tc) efmt).isShortCircuitable = false →
       this.ChecksTypes = true →
       this.evalChild ls p = .ok lv →
       this.evalChild rs p = .ok rv →
       tc lv rv = true →
       this.evaluateStage (.mk sym ls rs op ltc rtc (some tc) efmt) p = op lv rv p) ∧
    (∀ (this : EvaluableExpression) (sym : OperatorSymbol)
       (ls rs : Option evaluationStage)
       (op : Value → Value → Parameters → Except String Value)
       (ltc rtc : Option (Value → Bool)) (ctc : Option (Value → Value → Bool))
       (efmt : String) (p : Parameters) (lv rv : Value),
       (evaluationStage.mk sym ls rs op ltc rtc ctc efmt).isShortCircuitable = false →
       this.ChecksTypes = false →
       this.evalChild ls p = .ok lv →
       this.evalChild rs p = .ok rv →
       this.evaluateStage (.mk sym ls rs op ltc rtc ctc efmt) p = op lv rv p) := by
  refine ⟨?_, ?_, ?_, ?_, ?_, ?_⟩
  · intro this sym ls rs op ltc rtc tc efmt p lv rv hsc hct hl hr htc
    rw [evaluateStage_noSC this sym ls rs op ltc rtc (some tc) efmt p lv hsc hl]
    simp [hr, stageTypeCheckBlock, hct, evaluationStage.typeCheck,
      evaluationStage.typeErrorFormat, evaluationStage.symbol, htc]
  · intro this sym ls rs op f rtc efmt p lv rv hsc hct hl hr hf
    rw [evaluateStage_noSC this sym ls rs op (some f) rtc none efmt p lv hsc hl]
    simp [hr, stageTypeCheckBlock, hct, evaluationStage.typeCheck,
      evaluationStage.leftTypeCheck, evaluationStage.typeErrorFormat,
      evaluationStage.symbol, typeCheck, hf]
  · intro this sym ls rs op ltc g efmt p lv rv hsc hct hl hr hltc hg
    rw [evaluateStage_noSC this sym ls rs op ltc (some g) none efmt p lv hsc hl]
    simp [hr, stageTypeCheckBlock, hct, evaluationStage.typeCheck,
      evaluationStage.leftTypeCheck, evaluationStage.rightTypeCheck,
      evaluationStage.typeErrorFormat, evaluationStage.symbol, hltc,
      typeCheck_some, hg]
  · intro this sym ls rs op ltc rtc efmt p lv rv hsc hct hl hr hltc hrtc
    rw [evaluateStage_noSC this sym ls rs op ltc rtc none efmt p lv hsc hl]
    simp [hr, stageTypeCheckBlock, hct, evaluationStage.typeCheck,
      evaluationStage.leftTypeCheck, evaluationStage.rightTypeCheck,
      evaluationStage.typeErrorFormat, evaluationStage.symbol, hltc, hrtc]
  · intro this sym ls rs op ltc rtc tc efmt p lv rv hsc hct hl hr htc
    rw [evaluateStage_noSC this sym ls rs op ltc rtc (some tc) efmt p lv hsc hl]
    simp [hr, stageTypeCheckBlock, hct, evaluationStage.typeCheck, htc]
  · intro this sym ls rs op ltc rtc ctc efmt p lv rv hsc hcf hl hr
    rw [evaluateStage_noSC this sym ls rs op ltc rtc ctc efmt p lv hsc hl]
    simp [hr, stageTypeCheckBlock, hcf]

/-- Witness for C2: a PLUS stage over `1` and `"a"`, with a both-numeric
combined check, single-operand checks, and the same stage under
`ChecksTypes = false`. -/
theorem claim_C2_type_checking_witness :
    (exprWithStages true none).evaluateStage
        (.mk .PLUS (some (literalStage (.float 1))) (some (literalStage (.str "a")))
          (fun _ _ _ => .error "op ran") none none
          (some (fun a b => match a, b with
                 | .float _, .float _ => true
                 | _, _ => false)) "%v %s") DUMMY_PARAMETERS
      = .error (sprintfValueSymbol "%v %s" (.float 1) .PLUS) ∧
    (exprWithStages true none).evaluateStage
        (.mk .PLUS (some (literalStage (.float 1))) (some (literalStage (.str "a")))
          (fun _ _ _ => .error "op ran")
          (some (fun v => match v with | .str _ => true | _ => false))
          (some (fun _ => false)) none "%v %s") DUMMY_PARAMETERS
      = .error (sprintfValueSymbol "%v %s" (.float 1) .PLUS) ∧
    (exprWithStages true none).evaluateStage
        (.mk .PLUS (some (literalStage (.float 1))) (some (literalStage (.str "a")))
          (fun _ _ _ => .error "op ran")
          (some (fun v => match v with | .float _ => true | _ => false))
          (some (fun v => match v with | .float _ => true | _ => false))
          none "%v %s") DUMMY_PARAMETERS
      = .error (sprintfValueSymbol "%v %s" (.str "a") .PLUS) ∧
    (exprWithStages true none).evaluateStage
        (.mk .PLUS (some (literalStage (.float 1))) (some (literalStage (.float 2)))
          (fun _ _ _ => .ok (.float 3))
          (some (fun v => match v with | .float _ => true | _ => false))
          (some (fun v => match v with | .float _ => true | _ => false))
          none "%v %s") DUMMY_PARAMETERS
      = .ok (.float 3) ∧
    (exprWithStages true none).evaluateStage
        (.mk .PLUS (some (literalStage (.float 1))) (some (literalStage (.float 2)))
          (fun _ _ _ => .ok (.float 3)) none none
          (some (fun a b => match a, b with
                 | .float _, .float _ => true
                 | _, _ => false)) "%v %s") DUMMY_PARAMETERS
      = .ok (.float 3) ∧
    (exprWithStages false none).evaluateStage
        (.mk .PLUS (some (literalStage (.float 1))) (some (literalStage (.str "a")))
          (fun _ _ _ => .ok (.str "no type error")) none none
          (some (fun _ _ => false)) "%v %s") DUMMY_PARAMETERS
      = .ok (.str "no type error") := by
  refine ⟨?_, ?_, ?_, ?_, ?_, ?_⟩
  · exact claim_C2_type_checking.1 _ _ _ _ _ _ _ _ _ _ (.float 1) (.str "a")
      (by simp [evaluationStage.isShortCircuitable, evaluationStage.symbol]) rfl
      (by simp [EvaluableExpression.evalChild, literalStage_eval])
      (by simp [EvaluableExpression.evalChild, literalStage_eval]) rfl
  · exact claim_C2_type_checking.2.1 _ _ _ _ _ _ _ _ _ (.float 1) (.str "a")
      (by simp [evaluationStage.isShortCircuitable, evaluationStage.symbol]) rfl
      (by simp [EvaluableExpression.evalChild, literalStage_eval])
      (by simp [EvaluableExpression.evalChild, literalStage_eval]) rfl
  · exact claim_C2_type_checking.2.2.1 _ _ _ _ _ _ _ _ _ (.float 1) (.str "a")
      (by simp [evaluationStage.isShortCircuitable, evaluationStage.symbol]) rfl
      (by simp [EvaluableExpression.evalChild, literalStage_eval])
      (by simp [EvaluableExpression.evalChild, literalStage_eval]) rfl rfl
  · exact claim_C2_type_checking.2.2.2.1 _ _ _ _ _ _ _ _ _ (.float 1) (.float 2)
      (by simp [evaluationStage.isShortCircuitable, evaluationStage.symbol]) rfl
      (by simp [EvaluableExpression.evalChild, literalStage_eval])
      (by simp [EvaluableExpression.evalChild, literalStage_eval]) rfl rfl
  · exact claim_C2_type_checking.2.2.2.2.1 _ _ _ _ _ _ _ _ _ _ (.float 1) (.float 2)
      (by simp [evaluationStage.isShortCircuitable, evaluationStage.symbol]) rfl
      (by simp [EvaluableExpression.evalChild, literalStage_eval])
      (by simp [EvaluableExpression.evalChild, literalStage_eval]) rfl
  · exact claim_C2_type_checking.2.2.2.2.2 _ _ _ _ _ _ _ _ _ _ (.float 1) (.str "a")
      (by simp [evaluationStage.isShortCircuitable, evaluationStage.symbol]) rfl
      (by simp [EvaluableExpression.evalChild, literalStage_eval])
      (by simp [EvaluableExpression.evalChild, literalStage_eval])

/-- The evaluator reads the receiver expression only through its immutable
`ChecksTypes` field: two expressions agreeing on that flag evaluate every
stage tree identically. -/
theorem evaluateStage_congr (e₁ e₂ : EvaluableExpression)
    (h : e₁.ChecksTypes = e₂.ChecksTypes) :
    ∀ (s : evaluationStage) (p : Parameters),
      e₁.evaluateStage s p = e₂.evaluateStage s p
  | .mk sym ls rs op ltc rtc ctc efmt, p => by
    have ihl : e₁.evalChild ls p = e₂.evalChild ls p := by
      cases ls with
      | none => rfl
      | some l => exact evaluateStage_congr e₁ e₂ h l p
    cases rs with
    | none => rw [evaluateStage_mk, evaluateStage_mk, ihl, h]
    | some r =>
      have hrec := evaluateStage_congr e₁ e₂ h r p
      rw [evaluateStage_mk, evaluateStage_mk, ihl, h]
      simp only [hrec]
termination_by s => sizeOf s
decreasing_by
  · simp only [evaluationStage.mk.sizeOf_spec, Option.some.sizeOf_spec]; omega
  · simp only [evaluationStage.mk.sizeOf_spec, Option.some.sizeOf_spec]; omega

/-- C6: evaluation never mutates the compiled expression.  In this pure
embedding `evaluateStage` returns only a result — the token sequence and
the stage tree of the receiver are values it cannot write to — and the
theorem makes the residual content precise: the result is a function of the
immutable plan alone (the receiver matters only through its `ChecksTypes`
flag, however its tokens, stage tree and input text differ), and evaluating
the same expression twice with identical bindings yields identical
results. -/
theorem claim_C6_no_mutation :
    (∀ (e₁ e₂ : EvaluableExpression), e₁.ChecksTypes = e₂.ChecksTypes →
       ∀ (s : evaluationStage) (p : Parameters),
         e₁.evaluateStage s p = e₂.evaluateStage s p) ∧
    (∀ (e : EvaluableExpression) (p : Option Parameters)
       (r₁ r₂ : Except String Value),
       r₁ = e.Eval p → r₂ = e.Eval p → r₁ = r₂) := by
  refine ⟨fun e₁ e₂ h => evaluateStage_congr e₁ e₂ h, ?_⟩
  intro e p r₁ r₂ h₁ h₂
  rw [h₁, h₂]

/-- Witness for C6: two expression shells differing in tokens, stage tree
and input text but agreeing on `ChecksTypes` evaluate a concrete stage
identically, and two runs of `Eval` on the same inputs agree. -/
theorem claim_C6_no_mutation_witness :
    (exprWithStages true none).evaluateStage (literalStage (.float 7)) DUMMY_PARAMETERS =
      (EvaluableExpression.mk "fmt" true [ExpressionToken.mk .NUMERIC (.float 1)]
        (some (literalStage (.float 7))) "1").evaluateStage
        (literalStage (.float 7)) DUMMY_PARAMETERS ∧
    (exprWithStages true (some (literalStage (.float 7)))).Eval none =
      (exprWithStages true (some (literalStage (.float 7)))).Eval none := by
  constructor
  · exact claim_C6_no_mutation.1 (exprWithStages true none)
      (EvaluableExpression.mk "fmt" true [ExpressionToken.mk .NUMERIC (.float 1)]
        (some (literalStage (.float 7))) "1") rfl
      (literalStage (.float 7)) DUMMY_PARAMETERS
  · exact claim_C6_no_mutation.2 _ none _ _ rfl rfl

/-- C8: for every expression whose evaluation-stage tree is nil, `Eval`
returns a nil value and a nil error — `(nil, nil)`, i.e. `.ok .null` — for
every parameter provider, rather than reporting an error. -/
theorem claim_C8_nil_stages (e : EvaluableExpression) (p : Option Parameters)
    (h : e.evaluationStages = none) : e.Eval p = .ok .null := by
  unfold EvaluableExpression.Eval
  rw [h]

/-- Witness for C8: a zero-stage expression evaluates to the nil value both
with and without a provider. -/
theorem claim_C8_nil_stages_witness :
    (exprWithStages true none).Eval none = .ok .null ∧
    (exprWithStages true none).Eval (some DUMMY_PARAMETERS) = .ok .null := by
  exact ⟨claim_C8_nil_stages (exprWithStages true none) none rfl,
    claim_C8_nil_stages (exprWithStages true none) (some DUMMY_PARAMETERS) rfl⟩

/-- C9: nil bindings are accepted: `Evaluate` with a nil map delegates to
`Eval` with a nil provider; `DUMMY_PARAMETERS` is the provider over the
empty binding set; a nil provider is replaced by `DUMMY_PARAMETERS` before
any stage is evaluated, and a non-nil provider is wrapped in
`sanitizedParameters` before any stage sees it; a non-nil map is wrapped by
`MapParameters`. -/
theorem claim_C9_nil_parameters :
    (∀ e : EvaluableExpression, e.Evaluate none = e.Eval none) ∧
    DUMMY_PARAMETERS = MapParameters [] ∧
    (∀ (e : EvaluableExpression) (m : List (String × Value)),
       e.Evaluate (some m) = e.Eval (some (MapParameters m))) ∧
    (∀ (e : EvaluableExpression) (s : evaluationStage),
       e.evaluationStages = some s →
       e.Eval none = e.evaluateStage s DUMMY_PARAMETERS ∧
       ∀ p : Parameters,
         e.Eval (some p) = e.evaluateStage s (sanitizedParameters p)) := by
  refine ⟨fun e => rfl, rfl, fun e m => rfl, ?_⟩
  intro e s h
  constructor
  · unfold EvaluableExpression.Eval
    rw [h]
  · intro p
    unfold EvaluableExpression.Eval
    rw [h]

/-- Witness for C9: a single-literal expression run through the nil-map and
provider paths. -/
theorem claim_C9_nil_parameters_witness :
    (exprWithStages true (some (literalStage (.float 7)))).Eval none =
      (exprWithStages true (some (literalStage (.float 7)))).evaluateStage
        (literalStage (.float 7)) DUMMY_PARAMETERS ∧
    (exprWithStages true (some (literalStage (.float 7)))).Eval
        (some (MapParameters [("x", .float 1)])) =
      (exprWithStages true (some (literalStage (.float 7)))).evaluateStage
        (literalStage (.float 7))
        (sanitizedParameters (MapParameters [("x", .float 1)])) := by
  exact ⟨(claim_C9_nil_parameters.2.2.2 _ _ rfl).1,
    (claim_C9_nil_parameters.2.2.2 _ _ rfl).2 (MapParameters [("x", .float 1)])⟩

/-- C7: every successfully compiled expression — from either constructor —
has `ChecksTypes = true` and `QueryDateFormat` equal to the fixed
ISO-8601-with-nanoseconds pattern. -/
theorem claim_C7_defaults :
    isoDateFormat = "2006-01-02T15:04:05.999999999Z0700" ∧
    (∀ (checkBalance checkExpressionSyntax : List ExpressionToken → Option String)
       (optimizeTokens : List ExpressionToken → Except String (List ExpressionToken))
       (planStages : List ExpressionToken → Except String (Option evaluationStage))
       (tokens : List ExpressionToken) (ret : EvaluableExpression),
       NewEvaluableExpressionFromTokens checkBalance checkExpressionSyntax
           optimizeTokens planStages tokens = .ok ret →
       ret.ChecksTypes = true ∧ ret.QueryDateFormat = isoDateFormat) ∧
    (∀ (parseTokens : String → (String → Option ExpressionFunction) →
         Except String (List ExpressionToken))
       (checkBalance checkExpressionSyntax : List ExpressionToken → Option String)
       (optimizeTokens : List ExpressionToken → Except String (List ExpressionToken))
       (planStages : List ExpressionToken → Except String (Option evaluationStage))
       (expression : String) (functions : String → Option ExpressionFunction)
       (ret : EvaluableExpression),
       NewEvaluableExpressionWithFunctions parseTokens checkBalance
           checkExpressionSyntax optimizeTokens planStages expression functions = .ok ret →
       ret.ChecksTypes = true ∧ ret.QueryDateFormat = isoDateFormat) := by
  refine ⟨rfl, ?_, ?_⟩
  · intro cb ces ot ps tokens ret h
    unfold NewEvaluableExpressionFromTokens at h
    repeat' split at h
    all_goals first
      | (injection h with h; subst h; exact ⟨rfl, rfl⟩)
      | exact Except.noConfusion h
  · intro pt cb ces ot ps expression fns ret h
    unfold NewEvaluableExpressionWithFunctions at h
    repeat' split at h
    all_goals first
      | (injection h with h; subst h; exact ⟨rfl, rfl⟩)
      | exact Except.noConfusion h

/-- C10: the token-based constructor never records an input expression text,
so `String()` on any expression it returns is the empty string. -/
theorem claim_C10_fromTokens_string
    (checkBalance checkExpressionSyntax : List ExpressionToken → Option String)
    (optimizeTokens : List ExpressionToken → Except String (List ExpressionToken))
    (planStages : List ExpressionToken → Except String (Option evaluationStage))
    (tokens : List ExpressionToken) (ret : EvaluableExpression)
    (h : NewEvaluableExpressionFromTokens checkBalance checkExpressionSyntax
        optimizeTokens planStages tokens = .ok ret) :
    ret.String = "" := by
  unfold NewEvaluableExpressionFromTokens at h
  repeat' split at h
  all_goals first
    | (injection h with h; subst h; rfl)
    | exact Except.noConfusion h

/-- Witness for C7: both constructors run with trivially succeeding phases
give back `ChecksTypes = true` and the default date format. -/
theorem claim_C7_defaults_witness :
    ((exprWithStages true none).ChecksTypes = true ∧
      (exprWithStages true none).QueryDateFormat = isoDateFormat) ∧
    ((EvaluableExpression.mk isoDateFormat true [] none "x").ChecksTypes = true ∧
      (EvaluableExpression.mk isoDateFormat true [] none "x").QueryDateFormat
        = isoDateFormat) := by
  constructor
  · exact claim_C7_defaults.2.1 (fun _ => none) (fun _ => none)
      (fun ts => .ok ts) (fun _ => .ok none) [] (exprWithStages true none) rfl
  · exact claim_C7_defaults.2.2 (fun _ _ => .ok []) (fun _ => none) (fun _ => none)
      (fun ts => .ok ts) (fun _ => .ok none) "x" (fun _ => none)
      (EvaluableExpression.mk isoDateFormat true [] none "x") rfl

/-- Witness for C10: a concrete token-based compile yields an expression
whose source text is empty. -/
theorem claim_C10_fromTokens_string_witness :
    (exprWithStages true none).String = "" :=
  claim_C10_fromTokens_string (fun _ => none) (fun _ => none)
    (fun ts => .ok ts) (fun _ => .ok none) [] (exprWithStages true none) rfl

/-- C4: in both compile entry points every phase failure is terminal: the
constructor returns exactly that error (the `Except` result carries no
expression at all in that case, so the caller never sees a partially
constructed value), and the phases behind the failing one — universally
quantified and absent from the conclusion — are never consulted; the
hypothesis chains exhibit the fixed order lex → balance → syntax →
optimize → plan. -/
theorem claim_C4_compile_errors :
    (∀ (cb ces : List ExpressionToken → Option String)
       (ot : List ExpressionToken → Except String (List ExpressionToken))
       (ps : List ExpressionToken → Except String (Option evaluationStage))
       (tokens : List ExpressionToken) (e : String),
       cb tokens = some e →
       NewEvaluableExpressionFromTokens cb ces ot ps tokens = .error e) ∧
    (∀ (cb ces : List ExpressionToken → Option String)
       (ot : List ExpressionToken → Except String (List ExpressionToken))
       (ps : List ExpressionToken → Except String (Option evaluationStage))
       (tokens : List ExpressionToken) (e : String),
       cb tokens = none → ces tokens = some e →
       NewEvaluableExpressionFromTokens cb ces ot ps tokens = .error e) ∧
    (∀ (cb ces : List ExpressionToken → Option String)
       (ot : List ExpressionToken → Except String (List ExpressionToken))
       (ps : List ExpressionToken → Except String (Option evaluationStage))
       (tokens : List ExpressionToken) (e : String),
       cb tokens = none → ces tokens = none → ot tokens = .error e →
       NewEvaluableExpressionFromTokens cb ces ot ps tokens = .error e) ∧
    (∀ (cb ces : List ExpressionToken → Option String)
       (ot : List ExpressionToken → Except String (List ExpressionToken))
       (ps : List ExpressionToken → Except String (Option evaluationStage))
       (tokens optimized : List ExpressionToken) (e : String),
       cb tokens = none → ces tokens = none → ot tokens = .ok optimized →
       ps optimized = .error e →
       NewEvaluableExpressionFromTokens cb ces ot ps tokens = .error e) ∧
    (∀ (pt : String → (String → Option ExpressionFunction) →
         Except String (List ExpressionToken))
       (cb ces : List ExpressionToken → Option String)
       (ot : List ExpressionToken → Except String (List ExpressionToken))
       (ps : List ExpressionToken → Except String (Option evaluationStage))
       (expr : String) (fns : String → Option ExpressionFunction) (e : String),
       pt expr fns = .error e →
       NewEvaluableExpressionWithFunctions pt cb ces ot ps expr fns = .error e) ∧
    (∀ (pt : String → (String → Option ExpressionFunction) →
         Except String (List ExpressionToken))
       (cb ces : List ExpressionToken → Option String)
       (ot : List ExpressionToken → Except String (List ExpressionToken))
       (ps : List ExpressionToken → Except String (Option evaluationStage))
       (expr : String) (fns : String → Option ExpressionFunction)
       (tokens : List ExpressionToken) (e : String),
       pt expr fns = .ok tokens → cb tokens = some e →
       NewEvaluableExpressionWithFunctions pt cb ces ot ps expr fns = .error e) ∧
    (∀ (pt : String → (String → Option ExpressionFunction) →
         Except String (List ExpressionToken))
       (cb ces : List ExpressionToken → Option String)
       (ot : List ExpressionToken → Except String (List ExpressionToken))
       (ps : List ExpressionToken → Except String (Option evaluationStage))
       (expr : String) (fns : String → Option ExpressionFunction)
       (tokens : List ExpressionToken) (e : String),
       pt expr fns = .ok tokens → cb tokens = none → ces tokens = some e →
       NewEvaluableExpressionWithFunctions pt cb ces ot ps expr fns = .error e) ∧
    (∀ (pt : String → (String → Option ExpressionFunction) →
         Except String (List ExpressionToken))
       (cb ces : List ExpressionToken → Option String)
       (ot : List ExpressionToken → Except String (List ExpressionToken))
       (ps : List ExpressionToken → Except String (Option evaluationStage))
       (expr : String) (fns : String → Option ExpressionFunction)
       (tokens : List ExpressionToken) (e : String),
       pt expr fns = .ok tokens → cb tokens = none → ces tokens = none →
       ot tokens = .error e →
       NewEvaluableExpressionWithFunctions pt cb ces ot ps expr fns = .error e) ∧
    (∀ (pt : String → (String → Option ExpressionFunction) →
         Except String (List ExpressionToken))
       (cb ces : List ExpressionToken → Option String)
       (ot : List ExpressionToken → Except String (List ExpressionToken))
       (ps : List ExpressionToken → Except String (Option evaluationStage))
       (expr : String) (fns : String → Option ExpressionFunction)
       (tokens optimized : List ExpressionToken) (e : String),
       pt expr fns = .ok tokens → cb tokens = none → ces tokens = none →
       ot tokens = .ok optimized → ps optimized = .error e →
       NewEvaluableExpressionWithFunctions pt cb ces ot ps expr fns = .error e) := by
  refine ⟨?_, ?_, ?_, ?_, ?_, ?_, ?_, ?_, ?_⟩
  · intro cb ces ot ps tokens e h1
    unfold NewEvaluableExpressionFromTokens
    simp [h1]
  · intro cb ces ot ps tokens e h1 h2
    unfold NewEvaluableExpressionFromTokens
    simp [h1, h2]
  · intro cb ces ot ps tokens e h1 h2 h3
    unfold NewEvaluableExpressionFromTokens
    simp [h1, h2, h3]
  · intro cb ces ot ps tokens optimized e h1 h2 h3 h4
    unfold NewEvaluableExpressionFromTokens
    simp [h1, h2, h3, h4]
  · intro pt cb ces ot ps expr fns e h0
    unfold NewEvaluableExpressionWithFunctions
    simp [h0]
  · intro pt cb ces ot ps expr fns tokens e h0 h1
    unfold NewEvaluableExpressionWithFunctions
    simp [h0, h1]
  · intro pt cb ces ot ps expr fns tokens e h0 h1 h2
    unfold NewEvaluableExpressionWithFunctions
    simp [h0, h1, h2]
  · intro pt cb ces ot ps expr fns tokens e h0 h1 h2 h3
    unfold NewEvaluableExpressionWithFunctions
    simp [h0, h1, h2, h3]
  · intro pt cb ces ot ps expr fns tokens optimized e h0 h1 h2 h3 h4
    unfold NewEvaluableExpressionWithFunctions
    simp [h0, h1, h2, h3, h4]

/-- Witness for C4: each phase made to fail concretely is terminal for the
compile, through both entry points. -/
theorem claim_C4_compile_errors_witness :
    NewEvaluableExpressionFromTokens (fun _ => some "unbalanced parentheses")
      (fun _ => none) (fun ts => .ok ts) (fun _ => .ok none) []
      = .error "unbalanced parentheses" ∧
    NewEvaluableExpressionFromTokens (fun _ => none)
      (fun _ => some "invalid token transition") (fun ts => .ok ts)
      (fun _ => .ok none) [] = .error "invalid token transition" ∧
    NewEvaluableExpressionFromTokens (fun _ => none) (fun _ => none)
      (fun _ => .error "bad constant") (fun _ => .ok none) []
      = .error "bad constant" ∧
    NewEvaluableExpressionFromTokens (fun _ => none) (fun _ => none)
      (fun ts => .ok ts) (fun _ => .error "unknown function") []
      = .error "unknown function" ∧
    NewEvaluableExpressionWithFunctions (fun _ _ => .error "unterminated string")
      (fun _ => none) (fun _ => none) (fun ts => .ok ts) (fun _ => .ok none)
      "x" (fun _ => none) = .error "unterminated string" ∧
    NewEvaluableExpressionWithFunctions (fun _ _ => .ok [])
      (fun _ => some "unbalanced parentheses") (fun _ => none) (fun ts => .ok ts)
      (fun _ => .ok none) "x" (fun _ => none)
      = .error "unbalanced parentheses" ∧
    NewEvaluableExpressionWithFunctions (fun _ _ => .ok []) (fun _ => none)
      (fun _ => some "invalid token transition") (fun ts => .ok ts)
      (fun _ => .ok none) "x" (fun _ => none)
      = .error "invalid token transition" ∧
    NewEvaluableExpressionWithFunctions (fun _ _ => .ok []) (fun _ => none)
      (fun _ => none) (fun _ => .error "bad constant") (fun _ => .ok none)
      "x" (fun _ => none) = .error "bad constant" ∧
    NewEvaluableExpressionWithFunctions (fun _ _ => .ok []) (fun _ => none)
      (fun _ => none) (fun ts => .ok ts) (fun _ => .error "unknown function")
      "x" (fun _ => none) = .error "unknown function" := by
  refine ⟨?_, ?_, ?_, ?_, ?_, ?_, ?_, ?_, ?_⟩
  · exact claim_C4_compile_errors.1 _ _ _ _ [] _ rfl
  · exact claim_C4_compile_errors.2.1 _ _ _ _ [] _ rfl rfl
  · exact claim_C4_compile_errors.2.2.1 _ _ _ _ [] _ rfl rfl rfl
  · exact claim_C4_compile_errors.2.2.2.1 _ _ _ _ [] [] _ rfl rfl rfl rfl
  · exact claim_C4_compile_errors.2.2.2.2.1 _ _ _ _ _ "x" _ _ rfl
  · exact claim_C4_compile_errors.2.2.2.2.2.1 _ _ _ _ _ "x" _ [] _ rfl rfl
  · exact claim_C4_compile_errors.2.2.2.2.2.2.1 _ _ _ _ _ "x" _ [] _ rfl rfl rfl
  · exact claim_C4_compile_errors.2.2.2.2.2.2.2.1 _ _ _ _ _ "x" _ [] _
      rfl rfl rfl rfl
  · exact claim_C4_compile_errors.2.2.2.2.2.2.2.2 _ _ _ _ _ "x" _ [] [] _
      rfl rfl rfl rfl rfl

/-- `Vars` as a fold, related to filtering the token list: the accumulator
is prepended to the names of the remaining VARIABLE tokens. -/
theorem vars_go (ts : List ExpressionToken) (acc : List String)
    (h : ∀ t ∈ ts, t.Kind = TokenKind.VARIABLE → (t.Value.asString).isSome) :
    ts.foldlM
      (fun varlist val =>
        if val.Kind = TokenKind.VARIABLE then
          (val.Value.asString).map (fun s => varlist ++ [s])
        else
          some varlist) acc
    = some (acc ++ (ts.filter (fun t => t.Kind == TokenKind.VARIABLE)).filterMap
        (fun t => t.Value.asString)) := by
  induction ts generalizing acc with
  | nil => simp
  | cons t ts ih =>
    by_cases hk : t.Kind = TokenKind.VARIABLE
    · have hs : (t.Value.asString).isSome := h t (by simp) hk
      obtain ⟨s, hs⟩ := Option.isSome_iff_exists.mp hs
      simp [hk, hs, ih (acc ++ [s]) (fun u hu hku => h u (by simp [hu]) hku)]
    · simp [hk, ih acc (fun u hu hku => h u (by simp [hu]) hku)]

/-- An expression shell whose token stream references the variable `foo`
twice (as compiling `foo + foo` produces). -/
def duplicateVarExpr : EvaluableExpression :=
  { QueryDateFormat := isoDateFormat
    ChecksTypes := true
    tokens := [⟨.VARIABLE, .str "foo"⟩, ⟨.MODIFIER_OP, .str "+"⟩,
      ⟨.VARIABLE, .str "foo"⟩]
    evaluationStages := none
    inputExpression := "foo + foo" }

/-- Counterexample to C5 as stated: on a token stream mentioning the
variable `foo` twice, `Vars` returns `foo` twice — the returned list does
not contain each referenced variable name exactly once. -/
theorem claim_C5_counterexample :
    duplicateVarExpr.Vars = some ["foo", "foo"] ∧
    List.count "foo" ["foo", "foo"] = 2 := by
  exact ⟨rfl, rfl⟩

/-- C5 (amended): `Vars` returns the payload of every VARIABLE-kind token
of the compiled expression, in order of appearance, one entry per
occurrence — duplicates are retained, not collapsed to a set.  (The
hypothesis says every VARIABLE token carries a string payload, which is
what the Go type assertion `Value.(string)` requires to not panic.) -/
theorem claim_C5_vars_occurrences (e : EvaluableExpression)
    (h : ∀ t ∈ e.tokens, t.Kind = TokenKind.VARIABLE → (t.Value.asString).isSome) :
    e.Vars = some ((e.tokens.filter
        (fun t => t.Kind == TokenKind.VARIABLE)).filterMap
      (fun t => t.Value.asString)) := by
  unfold EvaluableExpression.Vars EvaluableExpression.Tokens
  simpa using vars_go e.tokens [] h

/-- Witness for the amended C5: a token stream referencing `a`, `b`, `a`
yields exactly that name sequence, duplicate included. -/
theorem claim_C5_vars_occurrences_witness :
    (EvaluableExpression.mk isoDateFormat true
      [⟨.VARIABLE, .str "a"⟩, ⟨.NUMERIC, .float 5⟩, ⟨.VARIABLE, .str "b"⟩,
        ⟨.VARIABLE, .str "a"⟩] none "a + 5 + b + a").Vars
      = some ["a", "b", "a"] := by
  have h := claim_C5_vars_occurrences
    (EvaluableExpression.mk isoDateFormat true
      [⟨.VARIABLE, .str "a"⟩, ⟨.NUMERIC, .float 5⟩, ⟨.VARIABLE, .str "b"⟩,
        ⟨.VARIABLE, .str "a"⟩] none "a + 5 + b + a")
    (by decide)
  simpa using h

end Govaluate
